import Mathlib

set_option maxRecDepth 4096

/-!
USB/IP packet codec — verification of the wire codec.

A shallow embedding of the packet codec in `src/packet.rs` of `usbip-rs`.
Byte streams are modelled as `List Nat` (each element one byte), readers are
functions `List Nat → Except PacketError (α × List Nat)` returning the decoded
value and the remaining stream, and writers return the produced bytes as
`Except PacketError (List Nat)`.  Machine integers (`u8`/`u16`/`u32`) are
modelled as `Nat`; big-endian serialisation truncates with `% 256` at each
byte exactly as the machine word would.  Rust `String` values are modelled as
their byte sequences (`List Nat`).
-/

/-- The error type of the codec (`PacketError` in the source); the
`Utf8Error` constructor of the source is unreachable for ASCII data and the
`IoError` payload is reduced to its message. -/
inductive PacketError where
  | packetError (msg : String)
  | ioError (msg : String)
deriving Repr, DecidableEq

instance {ε α : Type} [DecidableEq ε] [DecidableEq α] : DecidableEq (Except ε α) := fun x y =>
  match x, y with
  | .ok a, .ok b =>
    if h : a = b then .isTrue (by rw [h]) else
      .isFalse (by intro hh; injection hh; contradiction)
  | .error a, .error b =>
    if h : a = b then .isTrue (by rw [h]) else
      .isFalse (by intro hh; injection hh; contradiction)
  | .ok _, .error _ => .isFalse (by intro hh; exact Except.noConfusion hh)
  | .error _, .ok _ => .isFalse (by intro hh; exact Except.noConfusion hh)

/-- The error produced by a short read (`read_exact` hitting EOF). -/
def eofError : PacketError := .ioError ("failed to fill whole buffer")

/-- Read exactly `n` bytes from the stream (`read_exact`). -/
def readBytes (l : List Nat) (n : Nat) : Except PacketError (List Nat × List Nat) :=
  if n ≤ l.length then .ok (l.take n, l.drop n) else .error eofError

/-- Sequencing of a reader step: on error propagate, on success continue with
the value and the remaining stream (the `try!` chains of the source). -/
def pstep {α β : Type} (x : Except PacketError (α × List Nat))
    (f : α → List Nat → Except PacketError β) : Except PacketError β :=
  match x with
  | .error e => .error e
  | .ok (a, l) => f a l

/-- Sequencing of a plain fallible value (`try!` on a conversion). -/
def vstep {α β : Type} (x : Except PacketError α)
    (f : α → Except PacketError β) : Except PacketError β :=
  match x with
  | .error e => .error e
  | .ok a => f a

/-- Combine bytes big-endian into a number. -/
def beCombine (bs : List Nat) : Nat :=
  bs.foldl (fun acc b => acc * 256 + b) 0

/-- Source `read_u32::<BigEndian>`. -/
def readU32 (l : List Nat) : Except PacketError (Nat × List Nat) :=
  pstep (readBytes l 4) fun bs rest => .ok (beCombine bs, rest)

/-- Source `read_u16::<BigEndian>`. -/
def readU16 (l : List Nat) : Except PacketError (Nat × List Nat) :=
  pstep (readBytes l 2) fun bs rest => .ok (beCombine bs, rest)

/-- Source `read_u8`. -/
def readU8 (l : List Nat) : Except PacketError (Nat × List Nat) :=
  pstep (readBytes l 1) fun bs rest => .ok (beCombine bs, rest)

/-- Source `write_u32::<BigEndian>`: the four big-endian bytes of `v` (as a `u32`). -/
def beBytes32 (v : Nat) : List Nat :=
  [v / 16777216 % 256, v / 65536 % 256, v / 256 % 256, v % 256]

/-- Source `write_u16::<BigEndian>`. -/
def beBytes16 (v : Nat) : List Nat := [v / 256 % 256, v % 256]

/-- Source `write_u8`. -/
def beBytes8 (v : Nat) : List Nat := [v % 256]

/-- Source `buf.iter().position(|&x| x == 0)`: index of the first NUL byte. -/
def position0 : List Nat → Option Nat
  | [] => none
  | b :: bs => if b = 0 then some 0 else (position0 bs).map (· + 1)

/-- Source `read_fix_string`: read exactly `len` bytes, fail on non-ASCII, and return
the bytes before the first NUL (or the whole buffer when there is none). -/
def read_fix_string (l : List Nat) (len : Nat) : Except PacketError (List Nat × List Nat) :=
  pstep (readBytes l len) fun buf rest =>
    if buf.all (fun b => b < 128) then
      let n := match position0 buf with
        | some i => i
        | none => buf.length
      .ok (buf.take n, rest)
    else .error (.packetError ("Read string is not ASCII"))

/-- Source `write_fix_string`: fail when the string does not leave room for a NUL
terminator or is not ASCII; otherwise write the bytes NUL-padded to `size`. -/
def write_fix_string (s : List Nat) (size : Nat) : Except PacketError (List Nat) :=
  if s.length > size - 1 then
    .error (.packetError ("Write string is longer than buffer"))
  else if s.all (fun b => b < 128) then
    .ok (s ++ (if s.length < size then List.replicate (size - s.length) 0 else []))
  else .error (.packetError ("Write string is not ASCII"))

/-- The union of all legal `TransferFlags` bits:
`0x001 ||| 0x002 ||| 0x004 ||| 0x020 ||| 0x040 ||| 0x080 ||| 0x100 ||| 0x200 = 0x3E7`. -/
def transferFlagsAll : Nat := 999

/-- Source `TransferFlags`: a validated bit-set carried as its raw `u32` bits. -/
structure TransferFlags where
  bits : Nat
deriving Repr, DecidableEq

/-- Source `TransferFlags::from_u32` via `from_bits`: succeed exactly when no bit
outside `transferFlagsAll` is set. -/
def TransferFlags.from_u32 (val : Nat) : Except PacketError TransferFlags :=
  if val &&& transferFlagsAll = val then .ok ⟨val⟩
  else .error (.packetError ("Invalid transfer_flags"))

/-- Source `Direction`: `In = 1`, `Out = 0` on the wire. -/
inductive Direction where
  | In
  | Out
deriving Repr, DecidableEq

/-- Source `Direction::from_u32` (via `enum_from_primitive`). -/
def Direction.from_u32 (val : Nat) : Option Direction :=
  if val = 1 then some .In else if val = 0 then some .Out else none

/-- Source `Direction::from_u32_err`. -/
def Direction.from_u32_err (val : Nat) : Except PacketError Direction :=
  match Direction.from_u32 val with
  | some x => .ok x
  | none => .error (.packetError ("Invalid direction value"))

/-- Source `InterfaceDescriptor`. -/
structure InterfaceDescriptor where
  interface_class : Nat
  interface_subclass : Nat
  interface_protocol : Nat
deriving Repr, DecidableEq

/-- Source `DeviceDescriptor`. -/
structure DeviceDescriptor where
  path : List Nat
  busid : List Nat
  busnum : Nat
  devnum : Nat
  speed : Nat
  id_vendor : Nat
  id_product : Nat
  bcd_device : Nat
  device_class : Nat
  device_subclass : Nat
  device_protocol : Nat
  configuration_value : Nat
  num_configurations : Nat
  num_interfaces : Nat
  interfaces : List InterfaceDescriptor
deriving Repr, DecidableEq

/-- Source `RepDevList`. -/
structure RepDevList where
  status : Nat
  num_devices : Nat
  devices : List DeviceDescriptor
deriving Repr, DecidableEq

/-- Source `ReqImport`. -/
structure ReqImport where
  busid : List Nat
deriving Repr, DecidableEq

/-- Source `RepImport`. -/
structure RepImport where
  status : Nat
  path : List Nat
  busid : List Nat
  busnum : Nat
  devnum : Nat
  speed : Nat
  id_vendor : Nat
  id_product : Nat
  bcd_device : Nat
  device_class : Nat
  device_subclass : Nat
  device_protocol : Nat
  configuration_value : Nat
  num_configurations : Nat
  num_interfaces : Nat
deriving Repr, DecidableEq

/-- Source `CmdSubmit`. -/
structure CmdSubmit where
  seqnum : Nat
  devid : Nat
  direction : Direction
  ep : Nat
  transfer_flags : TransferFlags
  buffer_length : Nat
  start_frame : Nat
  num_packets : Nat
  interval : Nat
  setup : List Nat
  data : Option (List Nat)
deriving Repr, DecidableEq

/-- Source `RetSubmit` (defined in the source; its codec is not implemented). -/
structure RetSubmit where
  seqnum : Nat
  devid : Nat
  direction : Direction
  ep : Nat
  status : Nat
  length : Nat
  start_frame : Nat
  num_packets : Nat
  error_count : Nat
  setup : List Nat
  data : Option (List Nat)
deriving Repr, DecidableEq

/-- Source `CmdUnlink` (defined in the source; its codec is not implemented). -/
structure CmdUnlink where
  seq : Nat
  devid : Nat
  direction : Direction
  ep : Nat
  seqnum : Nat
deriving Repr, DecidableEq

/-- Source `RetUnlink` (defined in the source; its codec is not implemented). -/
structure RetUnlink where
  seqnum : Nat
  devid : Nat
  direction : Direction
  ep : Nat
  status : Nat
deriving Repr, DecidableEq

/-- Source `Packet`: the closed set of USB/IP operations. -/
inductive Packet where
  | ReqDevList
  | RepDevList (s : RepDevList)
  | ReqImport (s : ReqImport)
  | RepImport (s : RepImport)
  | CmdSubmit (s : CmdSubmit)
  | RetSubmit (s : RetSubmit)
  | CmdUnlink (s : CmdUnlink)
  | RetUnlink (s : RetUnlink)
deriving Repr, DecidableEq

/-- Read `n` successive records with the reader `f` (the `for _ in 0..n` read
loops of the source). -/
def readList {α : Type} (f : List Nat → Except PacketError (α × List Nat)) :
    Nat → List Nat → Except PacketError (List α × List Nat)
  | 0, l => .ok ([], l)
  | Nat.succ n, l =>
    pstep (f l) fun x l =>
    pstep (readList f n l) fun xs l =>
    .ok (x :: xs, l)

/-- Write a list of records with the writer `f` (the write loops). -/
def writeList {α : Type} (f : α → Except PacketError (List Nat)) :
    List α → Except PacketError (List Nat)
  | [] => .ok []
  | x :: xs =>
    vstep (f x) fun bx =>
    vstep (writeList f xs) fun bxs =>
    .ok (bx ++ bxs)

/-- Source `InterfaceDescriptor::read`: three class bytes and one padding byte. -/
def InterfaceDescriptor.read (l : List Nat) :
    Except PacketError (InterfaceDescriptor × List Nat) :=
  pstep (readU8 l) fun interface_class l =>
  pstep (readU8 l) fun interface_subclass l =>
  pstep (readU8 l) fun interface_protocol l =>
  pstep (readU8 l) fun _ l =>
  .ok (⟨interface_class, interface_subclass, interface_protocol⟩, l)

/-- Source `InterfaceDescriptor::write`. -/
def InterfaceDescriptor.write (i : InterfaceDescriptor) : Except PacketError (List Nat) :=
  .ok (beBytes8 i.interface_class ++ beBytes8 i.interface_subclass ++
       beBytes8 i.interface_protocol ++ [0])

/-- Source `DeviceDescriptor::read`. -/
def DeviceDescriptor.read (l : List Nat) :
    Except PacketError (DeviceDescriptor × List Nat) :=
  pstep (read_fix_string l 256) fun path l =>
  pstep (read_fix_string l 32) fun busid l =>
  pstep (readU32 l) fun busnum l =>
  pstep (readU32 l) fun devnum l =>
  pstep (readU32 l) fun speed l =>
  pstep (readU16 l) fun id_vendor l =>
  pstep (readU16 l) fun id_product l =>
  pstep (readU16 l) fun bcd_device l =>
  pstep (readU8 l) fun device_class l =>
  pstep (readU8 l) fun device_subclass l =>
  pstep (readU8 l) fun device_protocol l =>
  pstep (readU8 l) fun configuration_value l =>
  pstep (readU8 l) fun num_configurations l =>
  pstep (readU8 l) fun num_interfaces l =>
  pstep (readList InterfaceDescriptor.read num_interfaces l) fun interfaces l =>
  .ok (⟨path, busid, busnum, devnum, speed, id_vendor, id_product, bcd_device,
        device_class, device_subclass, device_protocol, configuration_value,
        num_configurations, num_interfaces, interfaces⟩, l)

/-- Source `DeviceDescriptor::write`. -/
def DeviceDescriptor.write (d : DeviceDescriptor) : Except PacketError (List Nat) :=
  vstep (write_fix_string d.path 256) fun bpath =>
  vstep (write_fix_string d.busid 32) fun bbusid =>
  vstep (writeList InterfaceDescriptor.write d.interfaces) fun bifs =>
  .ok (bpath ++ bbusid ++ beBytes32 d.busnum ++ beBytes32 d.devnum ++
       beBytes32 d.speed ++ beBytes16 d.id_vendor ++ beBytes16 d.id_product ++
       beBytes16 d.bcd_device ++ beBytes8 d.device_class ++
       beBytes8 d.device_subclass ++ beBytes8 d.device_protocol ++
       beBytes8 d.configuration_value ++ beBytes8 d.num_configurations ++
       beBytes8 d.num_interfaces ++ bifs)

/-- Source `RepDevList::read` (the tag has already been consumed). -/
def RepDevList.read (l : List Nat) : Except PacketError (Packet × List Nat) :=
  pstep (readU32 l) fun status l =>
  pstep (readU32 l) fun num_devices l =>
  pstep (readList DeviceDescriptor.read num_devices l) fun devices l =>
  .ok (.RepDevList ⟨status, num_devices, devices⟩, l)

/-- Source `RepDevList::write`. -/
def RepDevList.write (p : RepDevList) : Except PacketError (List Nat) :=
  vstep (writeList DeviceDescriptor.write p.devices) fun bdevs =>
  .ok (beBytes32 0x01110005 ++ beBytes32 p.status ++ beBytes32 p.num_devices ++ bdevs)

/-- Source `ReqImport::read`: a reserved `u32` (read and ignored) and the bus id. -/
def ReqImport.read (l : List Nat) : Except PacketError (Packet × List Nat) :=
  pstep (readU32 l) fun _status l =>
  pstep (read_fix_string l 32) fun busid l =>
  .ok (.ReqImport ⟨busid⟩, l)

/-- Source `ReqImport::write`. -/
def ReqImport.write (p : ReqImport) : Except PacketError (List Nat) :=
  vstep (write_fix_string p.busid 32) fun bbusid =>
  .ok (beBytes32 0x01118003 ++ beBytes32 0 ++ bbusid)

/-- Source `RepImport::read`: a non-zero status short-circuits to a value with all
device fields at their zero/empty defaults. -/
def RepImport.read (l : List Nat) : Except PacketError (Packet × List Nat) :=
  pstep (readU32 l) fun status l =>
  if status ≠ 0 then
    .ok (.RepImport ⟨status, [], [], 0, 0, 0, 0, 0, 0, 0, 0, 0, 0, 0, 0⟩, l)
  else
  pstep (read_fix_string l 256) fun path l =>
  pstep (read_fix_string l 32) fun busid l =>
  pstep (readU32 l) fun busnum l =>
  pstep (readU32 l) fun devnum l =>
  pstep (readU32 l) fun speed l =>
  pstep (readU16 l) fun id_vendor l =>
  pstep (readU16 l) fun id_product l =>
  pstep (readU16 l) fun bcd_device l =>
  pstep (readU8 l) fun device_class l =>
  pstep (readU8 l) fun device_subclass l =>
  pstep (readU8 l) fun device_protocol l =>
  pstep (readU8 l) fun configuration_value l =>
  pstep (readU8 l) fun num_configurations l =>
  pstep (readU8 l) fun num_interfaces l =>
  .ok (.RepImport ⟨status, path, busid, busnum, devnum, speed, id_vendor,
        id_product, bcd_device, device_class, device_subclass, device_protocol,
        configuration_value, num_configurations, num_interfaces⟩, l)

/-- Source `RepImport::write`: a non-zero status stops right after the status. -/
def RepImport.write (p : RepImport) : Except PacketError (List Nat) :=
  if p.status ≠ 0 then .ok (beBytes32 0x01110003 ++ beBytes32 p.status)
  else
  vstep (write_fix_string p.path 256) fun bpath =>
  vstep (write_fix_string p.busid 32) fun bbusid =>
  .ok (beBytes32 0x01110003 ++ beBytes32 p.status ++ bpath ++ bbusid ++
       beBytes32 p.busnum ++ beBytes32 p.devnum ++ beBytes32 p.speed ++
       beBytes16 p.id_vendor ++ beBytes16 p.id_product ++ beBytes16 p.bcd_device ++
       beBytes8 p.device_class ++ beBytes8 p.device_subclass ++
       beBytes8 p.device_protocol ++ beBytes8 p.configuration_value ++
       beBytes8 p.num_configurations ++ beBytes8 p.num_interfaces)

/-- Source `CmdSubmit::read`: the data payload of `buffer_length` bytes is read only
when the direction is `Out`. -/
def CmdSubmit.read (l : List Nat) : Except PacketError (Packet × List Nat) :=
  pstep (readU32 l) fun seqnum l =>
  pstep (readU32 l) fun devid l =>
  pstep (readU32 l) fun dirv l =>
  vstep (Direction.from_u32_err dirv) fun direction =>
  pstep (readU32 l) fun ep l =>
  pstep (readU32 l) fun tfv l =>
  vstep (TransferFlags.from_u32 tfv) fun transfer_flags =>
  pstep (readU32 l) fun buffer_length l =>
  pstep (readU32 l) fun start_frame l =>
  pstep (readU32 l) fun num_packets l =>
  pstep (readU32 l) fun interval l =>
  pstep (readBytes l 8) fun setup l =>
  if direction = Direction.Out then
    pstep (readBytes l buffer_length) fun dv l =>
    .ok (.CmdSubmit ⟨seqnum, devid, direction, ep, transfer_flags, buffer_length,
          start_frame, num_packets, interval, setup, some dv⟩, l)
  else
    .ok (.CmdSubmit ⟨seqnum, devid, direction, ep, transfer_flags, buffer_length,
          start_frame, num_packets, interval, setup, none⟩, l)

/-- Source `CmdSubmit::write`, exactly as the source: the tag, then `seqnum`,
`devid`, `ep`, `transfer_flags`, `buffer_length`, `start_frame`,
`num_packets`, `interval`, the setup bytes, and the data bytes when present.
The source does not write the `direction` field. -/
def CmdSubmit.write (p : CmdSubmit) : Except PacketError (List Nat) :=
  .ok (beBytes32 0x00000001 ++ beBytes32 p.seqnum ++ beBytes32 p.devid ++
       beBytes32 p.ep ++ beBytes32 p.transfer_flags.bits ++
       beBytes32 p.buffer_length ++ beBytes32 p.start_frame ++
       beBytes32 p.num_packets ++ beBytes32 p.interval ++ p.setup ++
       (match p.data with | some dv => dv | none => []))

/-- Source `Packet::read_req_devlist`: four reserved bytes, consumed and ignored. -/
def Packet.read_req_devlist (l : List Nat) : Except PacketError (Packet × List Nat) :=
  pstep (readU32 l) fun _ l => .ok (.ReqDevList, l)

/-- Source `Packet::write_req_devlist`. -/
def Packet.write_req_devlist : Except PacketError (List Nat) :=
  .ok (beBytes32 0x01118005 ++ beBytes32 0)

/-- Lower-case hexadecimal digit. -/
def hexDigit (n : Nat) : Char :=
  if n < 10 then Char.ofNat (48 + n) else Char.ofNat (87 + n)

/-- Eight-digit lower-case hexadecimal rendering of a `u32`
(the `0x...` part of the Rust format string). -/
def hex8 (n : Nat) : String :=
  String.mk ((List.range 8).map (fun i => hexDigit (n / 16 ^ (7 - i) % 16)))

/-- Source `Packet::read`: read the big-endian tag and dispatch on it. -/
def Packet.read (l : List Nat) : Except PacketError (Packet × List Nat) :=
  pstep (readU32 l) fun header l =>
  if header = 0x01118005 then Packet.read_req_devlist l
  else if header = 0x01110005 then RepDevList.read l
  else if header = 0x01118003 then ReqImport.read l
  else if header = 0x01110003 then RepImport.read l
  else if header = 0x00000001 then CmdSubmit.read l
  else if header = 0x00000003 then .error (.packetError ("RetSubmit not implemented"))
  else if header = 0x00000002 then .error (.packetError ("CmdUnlink not implemented"))
  else if header = 0x00000004 then .error (.packetError ("RetUnlink not implemented"))
  else .error (.packetError ("Unknown packet header: 0x" ++ hex8 header))

/-- Source `Packet::write`: dispatch on the variant. -/
def Packet.write : Packet → Except PacketError (List Nat)
  | .ReqDevList => Packet.write_req_devlist
  | .RepDevList s => s.write
  | .ReqImport s => s.write
  | .RepImport s => s.write
  | .CmdSubmit s => s.write
  | .RetSubmit _ => .error (.packetError ("RetSubmit not implemented"))
  | .CmdUnlink _ => .error (.packetError ("CmdUnlink not implemented"))
  | .RetUnlink _ => .error (.packetError ("RetUnlink not implemented"))

/-! ## Inversion and evaluation lemmas for the reader combinators -/

@[simp] lemma pstep_ok_eval {α β : Type} (a : α) (l : List Nat)
    (f : α → List Nat → Except PacketError β) : pstep (.ok (a, l)) f = f a l := rfl

@[simp] lemma pstep_error_eval {α β : Type} (e : PacketError)
    (f : α → List Nat → Except PacketError β) : pstep (.error e) f = .error e := rfl

@[simp] lemma vstep_ok_eval {α β : Type} (a : α)
    (f : α → Except PacketError β) : vstep (.ok a) f = f a := rfl

@[simp] lemma vstep_error_eval {α β : Type} (e : PacketError)
    (f : α → Except PacketError β) : vstep (.error e) f = .error e := rfl

lemma pstep_ok {α β : Type} {x : Except PacketError (α × List Nat)}
    {f : α → List Nat → Except PacketError β} {b : β}
    (h : pstep x f = .ok b) : ∃ a l, x = .ok (a, l) ∧ f a l = .ok b := by
  cases x with
  | error e => simp [pstep] at h
  | ok p => obtain ⟨a, l⟩ := p; exact ⟨a, l, rfl, h⟩

lemma vstep_ok {α β : Type} {x : Except PacketError α}
    {f : α → Except PacketError β} {b : β}
    (h : vstep x f = .ok b) : ∃ a, x = .ok a ∧ f a = .ok b := by
  cases x with
  | error e => simp [vstep] at h
  | ok a => exact ⟨a, rfl, h⟩

lemma readBytes_ok {l bs r : List Nat} {n : Nat} (h : readBytes l n = .ok (bs, r)) :
    n ≤ l.length ∧ bs = l.take n ∧ r = l.drop n := by
  unfold readBytes at h
  split at h
  · simp only [Except.ok.injEq, Prod.mk.injEq] at h
    exact ⟨by assumption, h.1.symm, h.2.symm⟩
  · exact absurd h (by simp)

lemma readBytes_exact (bs r : List Nat) {n : Nat} (hn : n = bs.length) :
    readBytes (bs ++ r) n = .ok (bs, r) := by
  subst hn
  unfold readBytes
  rw [if_pos (by simp), List.take_left, List.drop_left]

lemma readU32_ok {l : List Nat} {v : Nat} {r : List Nat} (h : readU32 l = .ok (v, r)) :
    4 ≤ l.length ∧ v = beCombine (l.take 4) ∧ r = l.drop 4 := by
  unfold readU32 at h
  obtain ⟨bs, rest, hb, h⟩ := pstep_ok h
  obtain ⟨hlen, hbs, hr⟩ := readBytes_ok hb
  injection h with hp
  injection hp with hv hrr
  exact ⟨hlen, by rw [← hv, hbs], by rw [← hrr, hr]⟩

lemma beCombine_beBytes32 (v : Nat) : beCombine (beBytes32 v) = v % 4294967296 := by
  simp only [beCombine, beBytes32, List.foldl]
  omega

lemma readU32_chunk (v : Nat) (r : List Nat) :
    readU32 (beBytes32 v ++ r) = .ok (v % 4294967296, r) := by
  unfold readU32
  rw [readBytes_exact (beBytes32 v) r (by simp [beBytes32])]
  simp only [pstep_ok_eval]
  rw [beCombine_beBytes32]

lemma readU32_chunk_lt {v : Nat} (r : List Nat) (h : v < 4294967296) :
    readU32 (beBytes32 v ++ r) = .ok (v, r) := by
  rw [readU32_chunk, Nat.mod_eq_of_lt h]

lemma readU32_exact {v : Nat} (h : v < 4294967296) :
    readU32 (beBytes32 v) = .ok (v, []) := by
  simpa using readU32_chunk_lt [] h

lemma readList_length {α : Type} {f : List Nat → Except PacketError (α × List Nat)} :
    ∀ {n : Nat} {l : List Nat} {xs : List α} {r : List Nat},
      readList f n l = .ok (xs, r) → xs.length = n := by
  intro n
  induction n with
  | zero =>
    intro l xs r h
    unfold readList at h
    simp only [Except.ok.injEq, Prod.mk.injEq] at h
    rw [← h.1]
    rfl
  | succ k ih =>
    intro l xs r h
    unfold readList at h
    obtain ⟨x, l1, hx, h⟩ := pstep_ok h
    obtain ⟨ys, l2, hys, h⟩ := pstep_ok h
    simp only [Except.ok.injEq, Prod.mk.injEq] at h
    rw [← h.1]
    simp [ih hys]

lemma readList_forall {α : Type} {P : α → Prop}
    {f : List Nat → Except PacketError (α × List Nat)}
    (hf : ∀ l x r, f l = .ok (x, r) → P x) :
    ∀ {n : Nat} {l : List Nat} {xs : List α} {r : List Nat},
      readList f n l = .ok (xs, r) → ∀ x ∈ xs, P x := by
  intro n
  induction n with
  | zero =>
    intro l xs r h x hx
    unfold readList at h
    simp only [Except.ok.injEq, Prod.mk.injEq] at h
    rw [← h.1] at hx
    simp at hx
  | succ k ih =>
    intro l xs r h x hx
    unfold readList at h
    obtain ⟨y, l1, hy, h⟩ := pstep_ok h
    obtain ⟨ys, l2, hys, h⟩ := pstep_ok h
    simp only [Except.ok.injEq, Prod.mk.injEq] at h
    rw [← h.1] at hx
    rcases List.mem_cons.mp hx with h1 | h2
    · rw [h1]; exact hf _ _ _ hy
    · exact ih hys x h2

lemma DeviceDescriptor.read_interfaces_length {l : List Nat} {d : DeviceDescriptor}
    {r : List Nat} (h : DeviceDescriptor.read l = .ok (d, r)) :
    d.interfaces.length = d.num_interfaces := by
  unfold DeviceDescriptor.read at h
  obtain ⟨path, l1, h1, h⟩ := pstep_ok h
  obtain ⟨busid, l2, h2, h⟩ := pstep_ok h
  obtain ⟨busnum, l3, h3, h⟩ := pstep_ok h
  obtain ⟨devnum, l4, h4, h⟩ := pstep_ok h
  obtain ⟨speed, l5, h5, h⟩ := pstep_ok h
  obtain ⟨idv, l6, h6, h⟩ := pstep_ok h
  obtain ⟨idp, l7, h7, h⟩ := pstep_ok h
  obtain ⟨bcd, l8, h8, h⟩ := pstep_ok h
  obtain ⟨dc, l9, h9, h⟩ := pstep_ok h
  obtain ⟨dsc, l10, h10, h⟩ := pstep_ok h
  obtain ⟨dp, l11, h11, h⟩ := pstep_ok h
  obtain ⟨cv, l12, h12, h⟩ := pstep_ok h
  obtain ⟨nc, l13, h13, h⟩ := pstep_ok h
  obtain ⟨ni, l14, h14, h⟩ := pstep_ok h
  obtain ⟨ifs, l15, h15, h⟩ := pstep_ok h
  simp only [Except.ok.injEq, Prod.mk.injEq] at h
  rw [← h.1]
  simpa using readList_length h15

/-! ## The claims -/

/-- C7: encoding `ReqImport` with bus id `"3-2"` produces exactly the tag
bytes `01 11 80 03`, four reserved zero bytes, and the ASCII bytes of
`"3-2"` NUL-padded to 32 bytes, and decoding that 40-byte buffer restores
the original packet with nothing left over. -/
theorem reqImport_concrete_bytes :
    Packet.write (.ReqImport ⟨[51, 45, 50]⟩) =
      .ok ([1, 17, 128, 3] ++ ([0, 0, 0, 0] ++ ([51, 45, 50] ++ List.replicate 29 0))) ∧
    Packet.read ([1, 17, 128, 3] ++ ([0, 0, 0, 0] ++ ([51, 45, 50] ++ List.replicate 29 0))) =
      .ok (.ReqImport ⟨[51, 45, 50]⟩, []) := by
  constructor
  · decide
  · decide

/-- The `CmdSubmit` value exhibiting the broken round-trip of C1: every
numeric field zero, direction `In`, an all-zero setup block, no data. -/
def c1Packet : CmdSubmit :=
  ⟨0, 0, .In, 0, ⟨0⟩, 0, 0, 0, 0, List.replicate 8 0, none⟩

/-- C1 (code bug): `CmdSubmit::write` omits the `direction` field that
`CmdSubmit::read` reads, so for the concrete packet `c1Packet` the encoder
produces a 44-byte buffer (tag plus only eight `u32` fields plus the setup
block) whose decoding fails with a short read instead of returning the
original packet: the round-trip law fails on `CmdSubmit`. -/
theorem cmdSubmit_roundtrip_fails :
    Packet.write (.CmdSubmit c1Packet) = .ok ([0, 0, 0, 1] ++ List.replicate 40 0) ∧
    Packet.read ([0, 0, 0, 1] ++ List.replicate 40 0) = .error eofError ∧
    ¬ Packet.read ([0, 0, 0, 1] ++ List.replicate 40 0) = .ok (.CmdSubmit c1Packet, []) := by
  refine ⟨by decide, by decide, by decide⟩

/-- C3: encoding a `RepImport` with non-zero status yields exactly the
4-byte tag followed by the 4-byte status (8 bytes, no device fields), and
decoding those 8 bytes yields a `RepImport` with that status and every
device field at its zero/empty default. -/
theorem repImport_nonzero_status_short_form (p : RepImport) (hs : p.status ≠ 0)
    (hlt : p.status < 4294967296) :
    RepImport.write p = .ok (beBytes32 0x01110003 ++ beBytes32 p.status) ∧
    (beBytes32 0x01110003 ++ beBytes32 p.status).length = 8 ∧
    Packet.read (beBytes32 0x01110003 ++ beBytes32 p.status) =
      .ok (.RepImport ⟨p.status, [], [], 0, 0, 0, 0, 0, 0, 0, 0, 0, 0, 0, 0⟩, []) := by
  refine ⟨?_, by simp [beBytes32], ?_⟩
  · unfold RepImport.write
    rw [if_pos hs]
  · unfold Packet.read
    rw [readU32_chunk_lt (beBytes32 p.status) (by norm_num)]
    simp only [pstep_ok_eval]
    norm_num
    unfold RepImport.read
    rw [readU32_exact hlt]
    simp only [pstep_ok_eval]
    rw [if_pos hs]

/-- Witness for C3 at the concrete packet with status `1`. -/
theorem repImport_nonzero_status_short_form_witness :
    RepImport.write ⟨1, [97], [], 7, 0, 0, 0, 0, 0, 0, 0, 0, 0, 0, 0⟩ =
      .ok (beBytes32 0x01110003 ++ beBytes32 1) ∧
    (beBytes32 0x01110003 ++ beBytes32 1).length = 8 ∧
    Packet.read (beBytes32 0x01110003 ++ beBytes32 1) =
      .ok (.RepImport ⟨1, [], [], 0, 0, 0, 0, 0, 0, 0, 0, 0, 0, 0, 0⟩, []) :=
  repImport_nonzero_status_short_form ⟨1, [97], [], 7, 0, 0, 0, 0, 0, 0, 0, 0, 0, 0, 0⟩
    (by decide) (by decide)

/-- C2: a successful `CmdSubmit` decode with direction `Out` returns a data
payload of exactly `buffer_length` bytes, consuming exactly `buffer_length`
bytes beyond the 44-byte fixed part; with direction `In` it returns no
payload and consumes exactly the 44 fixed bytes regardless of
`buffer_length`. -/
theorem cmdSubmit_direction_gated_data (l : List Nat) (c : CmdSubmit) (rest : List Nat)
    (h : CmdSubmit.read l = .ok (.CmdSubmit c, rest)) :
    (c.direction = .Out → ∃ dv, c.data = some dv ∧ dv.length = c.buffer_length ∧
      rest = l.drop (44 + c.buffer_length)) ∧
    (c.direction = .In → c.data = none ∧ rest = l.drop 44) := by
  unfold CmdSubmit.read at h
  obtain ⟨seqnum, l1, h1, h⟩ := pstep_ok h
  obtain ⟨devid, l2, h2, h⟩ := pstep_ok h
  obtain ⟨dirv, l3, h3, h⟩ := pstep_ok h
  obtain ⟨direction, hdir, h⟩ := vstep_ok h
  obtain ⟨ep, l4, h4, h⟩ := pstep_ok h
  obtain ⟨tfv, l5, h5, h⟩ := pstep_ok h
  obtain ⟨tf, htf, h⟩ := vstep_ok h
  obtain ⟨bl, l6, h6, h⟩ := pstep_ok h
  obtain ⟨sf, l7, h7, h⟩ := pstep_ok h
  obtain ⟨np, l8, h8, h⟩ := pstep_ok h
  obtain ⟨iv, l9, h9, h⟩ := pstep_ok h
  obtain ⟨setup, l10, h10, h⟩ := pstep_ok h
  have hl10 : l10 = l.drop 44 := by
    rw [(readBytes_ok h10).2.2, (readU32_ok h9).2.2, (readU32_ok h8).2.2,
        (readU32_ok h7).2.2, (readU32_ok h6).2.2, (readU32_ok h5).2.2,
        (readU32_ok h4).2.2, (readU32_ok h3).2.2, (readU32_ok h2).2.2,
        (readU32_ok h1).2.2]
    simp [List.drop_drop]
  split at h
  · rename_i hOut
    obtain ⟨dv, l11, h11, h⟩ := pstep_ok h
    obtain ⟨hlen11, hdv, hl11⟩ := readBytes_ok h11
    injection h with hp
    injection hp with hpk hrest
    injection hpk with hc
    subst hc
    subst hrest
    constructor
    · intro _
      refine ⟨dv, rfl, ?_, ?_⟩
      · show dv.length = bl
        rw [hdv, List.length_take]
        exact inf_eq_left.mpr hlen11
      · show l11 = l.drop (44 + bl)
        rw [hl11, hl10, List.drop_drop]
    · intro hIn
      simp [hOut] at hIn
  · rename_i hNotOut
    injection h with hp
    injection hp with hpk hrest
    injection hpk with hc
    subst hc
    subst hrest
    constructor
    · intro hO
      exact absurd hO hNotOut
    · intro _
      exact ⟨rfl, hl10⟩

/-- The concrete stream for the C2 witness: direction `Out`,
`buffer_length = 1`, setup block `9 × 8`, one payload byte `7`. -/
def c2Input : List Nat :=
  [0, 0, 0, 0, 0, 0, 0, 0, 0, 0, 0, 0, 0, 0, 0, 0, 0, 0, 0, 0,
   0, 0, 0, 1, 0, 0, 0, 0, 0, 0, 0, 0, 0, 0, 0, 0] ++
  ([9, 9, 9, 9, 9, 9, 9, 9] ++ [7])

/-- The packet decoded from `c2Input`. -/
def c2Packet : CmdSubmit :=
  ⟨0, 0, .Out, 0, ⟨0⟩, 1, 0, 0, 0, [9, 9, 9, 9, 9, 9, 9, 9], some [7]⟩

/-- Witness for C2 at the concrete stream `c2Input`. -/
theorem cmdSubmit_direction_gated_data_witness :
    (c2Packet.direction = .Out → ∃ dv, c2Packet.data = some dv ∧
      dv.length = c2Packet.buffer_length ∧
      ([] : List Nat) = c2Input.drop (44 + c2Packet.buffer_length)) ∧
    (c2Packet.direction = .In → c2Packet.data = none ∧
      ([] : List Nat) = c2Input.drop 44) :=
  cmdSubmit_direction_gated_data c2Input c2Packet [] (by decide)

lemma position0_append_zero (t : List Nat) :
    ∀ s : List Nat, (∀ b ∈ s, b ≠ 0) → position0 (s ++ (0 :: t)) = some s.length := by
  intro s
  induction s with
  | nil => intro _; simp [position0]
  | cons b bs ih =>
    intro hs
    rw [List.cons_append]
    unfold position0
    rw [if_neg (hs b (by simp))]
    rw [ih (fun x hx => hs x (by simp [hx]))]
    simp

/-- C4 counterexample: the one-byte string consisting of a single NUL is
ASCII and has length `1 ≤ 32 - 1`, so the claim asserts its width-32
round-trip; encoding succeeds (32 NUL bytes) but decoding returns the empty
string, not the original. -/
theorem write_fix_string_nul_roundtrip_fails :
    ([0] : List Nat).length ≤ 32 - 1 ∧ (∀ b ∈ ([0] : List Nat), b < 128) ∧
    write_fix_string [0] 32 = .ok (List.replicate 32 0) ∧
    read_fix_string (List.replicate 32 0) 32 = .ok ([], []) ∧
    ¬ read_fix_string (List.replicate 32 0) 32 = .ok ([0], []) := by
  refine ⟨by decide, by decide, by decide, by decide, by decide⟩

/-- C4 (amended): for an ASCII string `s` and width `N ≥ 1`, encoding
succeeds exactly when `s.length ≤ N - 1`, in which case it writes `s`
followed by NUL padding to `N` bytes, and — provided `s` contains no NUL
byte — decoding those `N` bytes returns `s`; when `s.length ≥ N` encoding
fails with the over-length error. -/
theorem write_fix_string_boundary (s : List Nat) (N : Nat) (hN : 1 ≤ N)
    (hascii : ∀ b ∈ s, b < 128) :
    (s.length ≤ N - 1 →
      write_fix_string s N = .ok (s ++ List.replicate (N - s.length) 0) ∧
      (s ++ List.replicate (N - s.length) 0).length = N ∧
      ((∀ b ∈ s, b ≠ 0) →
        read_fix_string (s ++ List.replicate (N - s.length) 0) N = .ok (s, []))) ∧
    (N ≤ s.length →
      write_fix_string s N =
        .error (.packetError ("Write string is longer than buffer"))) := by
  have halls : (s.all fun b => decide (b < 128)) = true := by
    rw [List.all_eq_true]
    intro x hx
    simpa using hascii x hx
  constructor
  · intro hle
    have hlt : s.length < N := by omega
    refine ⟨?_, ?_, ?_⟩
    · unfold write_fix_string
      rw [if_neg (by omega), if_pos halls, if_pos hlt]
    · simp only [List.length_append, List.length_replicate]
      omega
    · intro hnz
      have hrep : List.replicate (N - s.length) 0 =
          0 :: List.replicate (N - s.length - 1) 0 := by
        rw [show N - s.length = (N - s.length - 1) + 1 by omega]
        rfl
      have hb : readBytes (s ++ List.replicate (N - s.length) 0) N =
          .ok (s ++ List.replicate (N - s.length) 0, []) := by
        have h2 := readBytes_exact (n := N) (s ++ List.replicate (N - s.length) 0) []
          (by simp only [List.length_append, List.length_replicate]; omega)
        simpa using h2
      have hall2 : ((s ++ List.replicate (N - s.length) 0).all
          fun b => decide (b < 128)) = true := by
        rw [List.all_eq_true]
        intro x hx
        rcases List.mem_append.mp hx with h1 | h2
        · simpa using hascii x h1
        · have hx0 : x = 0 := List.eq_of_mem_replicate h2
          simp [hx0]
      unfold read_fix_string
      rw [hb]
      simp only [pstep_ok_eval]
      rw [if_pos hall2, hrep,
        position0_append_zero (List.replicate (N - s.length - 1) 0) s hnz]
      show Except.ok ((s ++ 0 :: List.replicate (N - s.length - 1) 0).take s.length,
        ([] : List Nat)) = Except.ok (s, ([] : List Nat))
      rw [List.take_left]
  · intro hge
    unfold write_fix_string
    rw [if_pos (by omega)]

/-- Witness for C4 (amended) at `s = "abc"`, `N = 4` (length exactly `N-1`). -/
theorem write_fix_string_boundary_witness :
    (([97, 98, 99] : List Nat).length ≤ 4 - 1 →
      write_fix_string [97, 98, 99] 4 =
        .ok ([97, 98, 99] ++ List.replicate (4 - ([97, 98, 99] : List Nat).length) 0) ∧
      (([97, 98, 99] : List Nat) ++
        List.replicate (4 - ([97, 98, 99] : List Nat).length) 0).length = 4 ∧
      ((∀ b ∈ ([97, 98, 99] : List Nat), b ≠ 0) →
        read_fix_string
          ([97, 98, 99] ++ List.replicate (4 - ([97, 98, 99] : List Nat).length) 0) 4 =
          .ok ([97, 98, 99], []))) ∧
    (4 ≤ ([97, 98, 99] : List Nat).length →
      write_fix_string [97, 98, 99] 4 =
        .error (.packetError ("Write string is longer than buffer"))) :=
  write_fix_string_boundary [97, 98, 99] 4 (by decide) (by decide)

/-- The eight operation tags known to the dispatcher. -/
def knownTags : List Nat := [0x01118005, 0x01110005, 0x01118003, 0x01110003,
  0x00000001, 0x00000003, 0x00000002, 0x00000004]

/-- C5: a stream whose first four bytes encode (big-endian) a `u32` that is
none of the eight known tags fails to decode with the unknown-operation
error naming that tag in hexadecimal, and the result does not depend on any
byte after the tag (the trailing stream `rest` is arbitrary). -/
theorem packet_read_unknown_tag (tag : Nat) (rest : List Nat)
    (h32 : tag < 4294967296) (hk : ¬ tag ∈ knownTags) :
    Packet.read (beBytes32 tag ++ rest) =
      .error (.packetError ("Unknown packet header: 0x" ++ hex8 tag)) := by
  simp only [knownTags, List.mem_cons, List.not_mem_nil, or_false, not_or] at hk
  obtain ⟨h1, h2, h3, h4, h5, h6, h7, h8⟩ := hk
  unfold Packet.read
  rw [readU32_chunk_lt rest h32]
  simp only [pstep_ok_eval]
  rw [if_neg h1, if_neg h2, if_neg h3, if_neg h4, if_neg h5, if_neg h6,
    if_neg h7, if_neg h8]

/-- Witness for C5 at the tag `0xdeadbeef` with trailing bytes present. -/
theorem packet_read_unknown_tag_witness :
    Packet.read (beBytes32 0xdeadbeef ++ [1, 2, 3]) =
      .error (.packetError ("Unknown packet header: 0x" ++ hex8 0xdeadbeef)) :=
  packet_read_unknown_tag 0xdeadbeef [1, 2, 3] (by norm_num) (by decide)

lemma transferFlags_invalid_bit {v : Nat}
    (hbit : ∃ i, v.testBit i = true ∧ Nat.testBit 999 i = false) :
    TransferFlags.from_u32 v = .error (.packetError ("Invalid transfer_flags")) := by
  obtain ⟨i, hv, h9⟩ := hbit
  unfold TransferFlags.from_u32 transferFlagsAll
  rw [if_neg]
  intro he
  have ht := congrArg (fun x => Nat.testBit x i) he
  simp only at ht
  rw [Nat.testBit_land, hv, h9] at ht
  simp at ht

lemma direction_invalid {v : Nat} (h0 : v ≠ 0) (h1 : v ≠ 1) :
    Direction.from_u32_err v = .error (.packetError ("Invalid direction value")) := by
  unfold Direction.from_u32_err Direction.from_u32
  rw [if_neg h1, if_neg h0]

/-- C6: a `transfer_flags` word with any bit outside the legal vocabulary
(`0x3E7 = 999`) fails to convert, a direction word other than `0`/`1` fails
to convert, and `CmdSubmit` decoding propagates both failures: a stream
whose direction field is neither `0` nor `1` decodes to the
invalid-direction error, and one with a valid direction but an illegal
flag bit decodes to the invalid-transfer-flags error. -/
theorem cmdSubmit_validates_direction_and_flags :
    (∀ v : Nat, (∃ i, v.testBit i = true ∧ Nat.testBit 999 i = false) →
      TransferFlags.from_u32 v = .error (.packetError ("Invalid transfer_flags"))) ∧
    (∀ v : Nat, v ≠ 0 → v ≠ 1 →
      Direction.from_u32_err v = .error (.packetError ("Invalid direction value"))) ∧
    (∀ (a b dv : Nat) (rest : List Nat), dv < 4294967296 → dv ≠ 0 → dv ≠ 1 →
      CmdSubmit.read (beBytes32 a ++ (beBytes32 b ++ (beBytes32 dv ++ rest))) =
        .error (.packetError ("Invalid direction value"))) ∧
    (∀ (a b dv c fv : Nat) (rest : List Nat), dv = 0 ∨ dv = 1 →
      fv < 4294967296 → (∃ i, fv.testBit i = true ∧ Nat.testBit 999 i = false) →
      CmdSubmit.read (beBytes32 a ++ (beBytes32 b ++ (beBytes32 dv ++ (beBytes32 c ++
        (beBytes32 fv ++ rest))))) =
        .error (.packetError ("Invalid transfer_flags"))) := by
  refine ⟨fun v hbit => transferFlags_invalid_bit hbit,
    fun v h0 h1 => direction_invalid h0 h1, ?_, ?_⟩
  · intro a b dv rest hlt h0 h1
    unfold CmdSubmit.read
    rw [readU32_chunk a]
    simp only [pstep_ok_eval]
    rw [readU32_chunk b]
    simp only [pstep_ok_eval]
    rw [readU32_chunk_lt rest hlt]
    simp only [pstep_ok_eval]
    rw [direction_invalid h0 h1]
    simp only [vstep_error_eval]
  · intro a b dv c fv rest hdv hfv hbit
    unfold CmdSubmit.read
    rw [readU32_chunk a]
    simp only [pstep_ok_eval]
    rw [readU32_chunk b]
    simp only [pstep_ok_eval]
    rcases hdv with rfl | rfl
    · rw [readU32_chunk_lt _ (by norm_num)]
      simp only [pstep_ok_eval]
      rw [show Direction.from_u32_err 0 = .ok Direction.Out from rfl]
      simp only [vstep_ok_eval]
      rw [readU32_chunk c]
      simp only [pstep_ok_eval]
      rw [readU32_chunk_lt rest hfv]
      simp only [pstep_ok_eval]
      rw [transferFlags_invalid_bit hbit]
      simp only [vstep_error_eval]
    · rw [readU32_chunk_lt _ (by norm_num)]
      simp only [pstep_ok_eval]
      rw [show Direction.from_u32_err 1 = .ok Direction.In from rfl]
      simp only [vstep_ok_eval]
      rw [readU32_chunk c]
      simp only [pstep_ok_eval]
      rw [readU32_chunk_lt rest hfv]
      simp only [pstep_ok_eval]
      rw [transferFlags_invalid_bit hbit]
      simp only [vstep_error_eval]

/-- Witness for C6: the flag word `8 = 0x008` has bit 3 set, which is not in
the vocabulary; the direction word `2` is neither `0` nor `1`. -/
theorem cmdSubmit_validates_direction_and_flags_witness :
    TransferFlags.from_u32 8 = .error (.packetError ("Invalid transfer_flags")) ∧
    Direction.from_u32_err 2 = .error (.packetError ("Invalid direction value")) ∧
    CmdSubmit.read (beBytes32 0 ++ (beBytes32 0 ++ (beBytes32 2 ++ []))) =
      .error (.packetError ("Invalid direction value")) ∧
    CmdSubmit.read (beBytes32 0 ++ (beBytes32 0 ++ (beBytes32 0 ++ (beBytes32 0 ++
      (beBytes32 8 ++ []))))) = .error (.packetError ("Invalid transfer_flags")) :=
  ⟨cmdSubmit_validates_direction_and_flags.1 8 ⟨3, by decide, by decide⟩,
   cmdSubmit_validates_direction_and_flags.2.1 2 (by decide) (by decide),
   cmdSubmit_validates_direction_and_flags.2.2.1 0 0 2 [] (by norm_num)
     (by decide) (by decide),
   cmdSubmit_validates_direction_and_flags.2.2.2 0 0 0 0 8 [] (Or.inl rfl)
     (by norm_num) ⟨3, by decide, by decide⟩⟩

/-- C8: decoding a stream whose tag is `RetSubmit` (3), `CmdUnlink` (2) or
`RetUnlink` (4) fails with the matching not-implemented error whatever
bytes follow the tag, and encoding any packet of those three variants
fails with the matching not-implemented error, producing no bytes. -/
theorem unimplemented_variants_fail :
    (∀ rest : List Nat,
      Packet.read (beBytes32 3 ++ rest) =
        .error (.packetError ("RetSubmit not implemented")) ∧
      Packet.read (beBytes32 2 ++ rest) =
        .error (.packetError ("CmdUnlink not implemented")) ∧
      Packet.read (beBytes32 4 ++ rest) =
        .error (.packetError ("RetUnlink not implemented"))) ∧
    (∀ s : RetSubmit, Packet.write (.RetSubmit s) =
      .error (.packetError ("RetSubmit not implemented"))) ∧
    (∀ s : CmdUnlink, Packet.write (.CmdUnlink s) =
      .error (.packetError ("CmdUnlink not implemented"))) ∧
    (∀ s : RetUnlink, Packet.write (.RetUnlink s) =
      .error (.packetError ("RetUnlink not implemented"))) := by
  refine ⟨fun rest => ⟨?_, ?_, ?_⟩, fun s => rfl, fun s => rfl, fun s => rfl⟩
  · unfold Packet.read
    rw [readU32_chunk_lt rest (by norm_num)]
    simp only [pstep_ok_eval]
    norm_num
  · unfold Packet.read
    rw [readU32_chunk_lt rest (by norm_num)]
    simp only [pstep_ok_eval]
    norm_num
  · unfold Packet.read
    rw [readU32_chunk_lt rest (by norm_num)]
    simp only [pstep_ok_eval]
    norm_num

/-- C9: a fixed-width string field whose on-wire window contains a
non-ASCII byte fails to decode, and an in-memory string containing a
non-ASCII byte fails to encode; in both directions the result is an error,
never a value. -/
theorem fix_string_ascii_guard :
    (∀ (l : List Nat) (N : Nat), (∃ b ∈ l.take N, 128 ≤ b) →
      ∃ e, read_fix_string l N = .error e) ∧
    (∀ (s : List Nat) (N : Nat), (∃ b ∈ s, 128 ≤ b) →
      ∃ e, write_fix_string s N = .error e) := by
  constructor
  · intro l N hbad
    unfold read_fix_string readBytes
    by_cases hlen : N ≤ l.length
    · rw [if_pos hlen]
      simp only [pstep_ok_eval]
      have hnall : ¬ ((l.take N).all fun b => decide (b < 128)) = true := by
        obtain ⟨b, hmem, hb⟩ := hbad
        rw [List.all_eq_true]
        intro hall
        have h2 := hall b hmem
        simp at h2
        omega
      rw [if_neg hnall]
      exact ⟨_, rfl⟩
    · rw [if_neg hlen]
      simp only [pstep_error_eval]
      exact ⟨eofError, rfl⟩
  · intro s N hbad
    unfold write_fix_string
    by_cases hl : s.length > N - 1
    · rw [if_pos hl]
      exact ⟨_, rfl⟩
    · have hnall : ¬ (s.all fun b => decide (b < 128)) = true := by
        obtain ⟨b, hmem, hb⟩ := hbad
        rw [List.all_eq_true]
        intro hall
        have h2 := hall b hmem
        simp at h2
        omega
      rw [if_neg hl, if_neg hnall]
      exact ⟨_, rfl⟩

/-- Witness for C9 at the non-ASCII byte `200`. -/
theorem fix_string_ascii_guard_witness :
    (∃ e, read_fix_string [200] 1 = .error e) ∧
    (∃ e, write_fix_string [200] 5 = .error e) :=
  ⟨fix_string_ascii_guard.1 [200] 1 ⟨200, by decide, by decide⟩,
   fix_string_ascii_guard.2 [200] 5 ⟨200, by decide, by decide⟩⟩

/-- C10: every `RepDevList` produced by a successful decode has exactly
`num_devices` devices, each with exactly `num_interfaces` interfaces; the
encoder, by contrast, emits the two count fields taken verbatim from the
structure without checking them against the vector lengths, as shown by an
empty device vector encoded under an arbitrary `num_devices` and an empty
interface vector encoded under an arbitrary `num_interfaces`. -/
theorem repDevList_counts_invariant :
    (∀ (l : List Nat) (p : RepDevList) (rest : List Nat),
      RepDevList.read l = .ok (.RepDevList p, rest) →
        p.devices.length = p.num_devices ∧
        ∀ d ∈ p.devices, d.interfaces.length = d.num_interfaces) ∧
    (∀ status n : Nat, RepDevList.write ⟨status, n, []⟩ =
      .ok (beBytes32 0x01110005 ++ beBytes32 status ++ beBytes32 n ++ [])) ∧
    (∀ k : Nat,
      DeviceDescriptor.write ⟨[], [], 0, 0, 0, 0, 0, 0, 0, 0, 0, 0, 0, k, []⟩ =
      .ok (List.replicate 256 0 ++ List.replicate 32 0 ++ beBytes32 0 ++
        beBytes32 0 ++ beBytes32 0 ++ beBytes16 0 ++ beBytes16 0 ++ beBytes16 0 ++
        beBytes8 0 ++ beBytes8 0 ++ beBytes8 0 ++ beBytes8 0 ++ beBytes8 0 ++
        beBytes8 k ++ [])) := by
  refine ⟨?_, ?_, ?_⟩
  · intro l p rest h
    unfold RepDevList.read at h
    obtain ⟨status, l1, h1, h⟩ := pstep_ok h
    obtain ⟨nd, l2, h2, h⟩ := pstep_ok h
    obtain ⟨devs, l3, h3, h⟩ := pstep_ok h
    injection h with hp
    injection hp with hpk hrest
    injection hpk with hc
    subst hc
    constructor
    · show devs.length = nd
      exact readList_length h3
    · intro d hd
      exact readList_forall (P := fun d => d.interfaces.length = d.num_interfaces)
        (fun l' x r' hx => DeviceDescriptor.read_interfaces_length hx) h3 d hd
  · intro status n
    rfl
  · intro k
    show vstep (write_fix_string [] 256) _ = _
    rw [show write_fix_string [] 256 = .ok (List.replicate 256 0) from by decide]
    simp only [vstep_ok_eval]
    show vstep (write_fix_string [] 32) _ = _
    rw [show write_fix_string [] 32 = .ok (List.replicate 32 0) from by decide]
    simp only [vstep_ok_eval]
    rfl

/-- Witness for C10 at the 8-byte stream decoding to an empty device list. -/
theorem repDevList_counts_invariant_witness :
    (({ status := 0, num_devices := 0, devices := [] } : RepDevList).devices.length =
      ({ status := 0, num_devices := 0, devices := [] } : RepDevList).num_devices) ∧
    (∀ d ∈ ({ status := 0, num_devices := 0, devices := [] } : RepDevList).devices,
      d.interfaces.length = d.num_interfaces) :=
  repDevList_counts_invariant.1 [0, 0, 0, 0, 0, 0, 0, 0]
    { status := 0, num_devices := 0, devices := [] } [] (by decide)
